import Mathlib

/-!
Shallow embedding of the `mcp-rule` repository (Rule.io API client and MCP
routing layer) and proofs about it.

Source files embedded:
  * `src/mcp_rule/models.py`  — pydantic entity models and their validation
  * `src/mcp_rule/errors.py`  — `RuleAPIError`
  * `src/mcp_rule/client.py`  — `RuleClient` (`__init__`, `_request`,
    `get_subscribers`, `get_tags`, `get_campaigns`, `get_custom_fields`, ...)
  * `src/mcp_rule/mcp.py`     — route handlers and `handle_rule_mcp`
  * `src/mcp_rule/cli.py`     — `main`

JSON values are modelled by the inductive `Json`; numbers are integers (no
claim involves fractional numbers).  Python dicts appearing in JSON are
association lists; `dict.get` is first-match lookup.  pydantic `datetime`
fields are modelled as their source strings together with the validity check
`isIsoDatetime` (pydantic parses the string to a datetime object; every claim
only compares a datetime with the JSON text it was parsed from, so keeping the
validated text is observationally adequate and keeps definitions executable).
Exceptions raised by the Python code are constructors of `PyErr`; fallible
Python code is embedded as `Except PyErr _`.
-/

namespace McpRule

/-- JSON values. Numbers are modelled as integers (no claim involves
fractional literals). Objects are association lists in key order. -/
inductive Json where
  | null : Json
  | bool : Bool → Json
  | num : Int → Json
  | str : String → Json
  | arr : List Json → Json
  | obj : List (String × Json) → Json
  deriving Repr

/-- First-match lookup in an association list, i.e. Python `dict.get(k)`
for dicts built left to right (later duplicate keys overwrite earlier ones in
Python; JSON bodies in every claim have distinct keys, and we look up the
first match). -/
def alistGet (kvs : List (String × Json)) (k : String) : Option Json :=
  match kvs with
  | [] => none
  | (k', v) :: rest => if k' = k then some v else alistGet rest k

/-- `Json.getKey j k`: `j[k]` when `j` is an object containing `k`. -/
def Json.getKey : Json → String → Option Json
  | .obj kvs, k => alistGet kvs k
  | _, _ => none

/-! ### ISO-8601 datetime validation

pydantic parses `datetime` fields from strings such as
`"2023-01-01T00:00:00Z"`.  `isIsoDatetime` accepts the
`YYYY-MM-DDTHH:MM:SS` shape with an optional `Z` or `±HH:MM` offset — a
subset of what pydantic accepts, so every envelope valid for this model is
valid for the source. -/

/-- Split a character list at every occurrence of `sep` (the separator is
dropped; adjacent separators produce empty groups). -/
def splitOnChar (sep : Char) : List Char → List (List Char)
  | [] => [[]]
  | c :: rest =>
    let r := splitOnChar sep rest
    if c = sep then [] :: r
    else
      match r with
      | [] => [[c]]
      | g :: gs => (c :: g) :: gs

/-- `cs` is exactly `n` decimal digits. -/
def isDigits (cs : List Char) (n : Nat) : Bool :=
  cs.length = n && cs.all (·.isDigit)

/-- Digits of a fixed-width decimal field, as a number. -/
def digitsToNat (cs : List Char) : Nat :=
  cs.foldl (fun acc c => acc * 10 + (c.toNat - 48)) 0

/-- Number of days in a month of a given year (Gregorian). -/
def daysInMonth (year month : Nat) : Nat :=
  if month = 2 then
    if year % 4 = 0 && (year % 100 ≠ 0 || year % 400 = 0) then 29 else 28
  else if month = 4 || month = 6 || month = 9 || month = 11 then 30
  else 31

/-- `YYYY-MM-DD` with a calendar-valid day. -/
def isValidDate (cs : List Char) : Bool :=
  match splitOnChar '-' cs with
  | [y, m, d] =>
    isDigits y 4 && isDigits m 2 && isDigits d 2 &&
      (let mo := digitsToNat m
       let da := digitsToNat d
       1 ≤ mo && mo ≤ 12 && 1 ≤ da && da ≤ daysInMonth (digitsToNat y) mo)
  | _ => false

/-- `HH:MM:SS` with in-range components. -/
def isValidHms (cs : List Char) : Bool :=
  match splitOnChar ':' cs with
  | [h, mi, se] =>
    isDigits h 2 && isDigits mi 2 && isDigits se 2 &&
      digitsToNat h < 24 && digitsToNat mi < 60 && digitsToNat se < 60
  | _ => false

/-- `HH:MM` timezone offset with in-range components. -/
def isValidOffset (cs : List Char) : Bool :=
  match splitOnChar ':' cs with
  | [h, mi] =>
    isDigits h 2 && isDigits mi 2 && digitsToNat h < 24 && digitsToNat mi < 60
  | _ => false

/-- Time-of-day part, optionally carrying a `Z` or `±HH:MM` offset. -/
def isValidTime (cs : List Char) : Bool :=
  if cs.getLast? = some 'Z' then isValidHms cs.dropLast
  else
    match splitOnChar '+' cs with
    | [hms, off] => isValidHms hms && isValidOffset off
    | [_] =>
      match splitOnChar '-' cs with
      | [hms, off] => isValidHms hms && isValidOffset off
      | [hms] => isValidHms hms
      | _ => false
    | _ => false

/-- Accepts `YYYY-MM-DDTHH:MM:SS[Z|±HH:MM]`: the shape pydantic parses into
the `datetime` fields of the models. -/
def isIsoDatetime (s : String) : Bool :=
  match splitOnChar 'T' s.data with
  | [d, t] => isValidDate d && isValidTime t
  | _ => false

/-! ### Entity models (`src/mcp_rule/models.py`)

Each model is a structure plus a parser that mirrors pydantic validation for
`Model(**json_object)`: required fields must be present with the right shape,
fields with defaults fall back when absent, extra keys are ignored (pydantic's
default).  Parsers return `Except String _`; the message plays the role of
pydantic's `ValidationError` text (only its presence matters to any claim). -/

/-- `Pagination` (models.py lines 11-18). -/
structure Pagination where
  total : Int
  count : Int
  per_page : Int
  current_page : Int
  total_pages : Int
  deriving Repr, DecidableEq

/-- `Subscriber` (models.py lines 21-33). `created`/`updated` hold the
validated datetime source text (see module comment). -/
structure Subscriber where
  id : String
  email : String
  created : String
  updated : String
  fields : List (String × Json) := []
  tags : List String := []
  unsubscribed : Bool := false
  bounced : Bool := false
  status : String
  source : Option String := none
  deriving Repr

/-- `Tag` (models.py lines 57-64). -/
structure Tag where
  id : String
  name : String
  created : String
  updated : String
  subscriber_count : Int
  deriving Repr, DecidableEq

/-- `Campaign` (models.py lines 80-91). -/
structure Campaign where
  id : String
  name : String
  created : String
  updated : String
  status : String
  type : String
  subject : Option String := none
  sender_name : Option String := none
  sender_email : Option String := none
  deriving Repr, DecidableEq

/-- `CustomField` (models.py lines 107-115). `default_value : Any = None`;
the Python `None` default is `Json.null`. -/
structure CustomField where
  id : String
  name : String
  type : String
  created : String
  updated : String
  default_value : Json := Json.null
  deriving Repr

/-- Required `str` field. -/
def reqStr (kvs : List (String × Json)) (k : String) : Except String String :=
  match alistGet kvs k with
  | some (Json.str s) => .ok s
  | some _ => .error (k ++ ": Input should be a valid string")
  | none => .error (k ++ ": Field required")

/-- Required `datetime` field (validated text, see module comment). -/
def reqDatetime (kvs : List (String × Json)) (k : String) : Except String String :=
  match alistGet kvs k with
  | some (Json.str s) =>
    if isIsoDatetime s then .ok s
    else .error (k ++ ": Input should be a valid datetime")
  | some _ => .error (k ++ ": Input should be a valid datetime")
  | none => .error (k ++ ": Field required")

/-- Required `int` field. -/
def reqInt (kvs : List (String × Json)) (k : String) : Except String Int :=
  match alistGet kvs k with
  | some (Json.num n) => .ok n
  | some _ => .error (k ++ ": Input should be a valid integer")
  | none => .error (k ++ ": Field required")

/-- `Optional[str] = None` field. -/
def optStr (kvs : List (String × Json)) (k : String) : Except String (Option String) :=
  match alistGet kvs k with
  | none => .ok none
  | some Json.null => .ok none
  | some (Json.str s) => .ok (some s)
  | some _ => .error (k ++ ": Input should be a valid string")

/-- `bool = False` field. -/
def defBool (kvs : List (String × Json)) (k : String) : Except String Bool :=
  match alistGet kvs k with
  | none => .ok false
  | some (Json.bool b) => .ok b
  | some _ => .error (k ++ ": Input should be a valid boolean")

/-- Element-wise validation with first-error propagation (the effect of a
pydantic list field or of `[Model(**x) for x in xs]`). -/
def mapME {α β : Type} (f : α → Except String β) : List α → Except String (List β)
  | [] => .ok []
  | x :: xs =>
    match f x with
    | .error e => .error e
    | .ok y =>
      match mapME f xs with
      | .error e => .error e
      | .ok ys => .ok (y :: ys)

/-- One element of a `List[str]` field. -/
def asStrElem (k : String) (x : Json) : Except String String :=
  match x with
  | Json.str s => .ok s
  | _ => .error (k ++ ": Input should be a valid string")

/-- `List[str] = []` field (`tags`). -/
def defStrList (kvs : List (String × Json)) (k : String) : Except String (List String) :=
  match alistGet kvs k with
  | none => .ok []
  | some (Json.arr xs) => mapME (asStrElem k) xs
  | some _ => .error (k ++ ": Input should be a valid list")

/-- `Dict[str, Any] = {}` field (`fields`). -/
def defDict (kvs : List (String × Json)) (k : String) :
    Except String (List (String × Json)) :=
  match alistGet kvs k with
  | none => .ok []
  | some (Json.obj fs) => .ok fs
  | some _ => .error (k ++ ": Input should be a valid dictionary")

/-- `Any = None` field (`default_value`). -/
def defAny (kvs : List (String × Json)) (k : String) : Json :=
  (alistGet kvs k).getD Json.null

/-- `Pagination(**j)`. -/
def parsePagination (j : Json) : Except String Pagination :=
  match j with
  | Json.obj kvs => do
    let total ← reqInt kvs "total"
    let count ← reqInt kvs "count"
    let perPage ← reqInt kvs "per_page"
    let currentPage ← reqInt kvs "current_page"
    let totalPages ← reqInt kvs "total_pages"
    .ok ⟨total, count, perPage, currentPage, totalPages⟩
  | _ => .error "pagination: Input should be a valid dictionary"

/-- `Subscriber(**j)`: succeeds exactly when every field validates (pydantic
reports the collected field errors; only failure itself matters here, so the
error arm carries one generic message). -/
def parseSubscriber (j : Json) : Except String Subscriber :=
  match j with
  | Json.obj kvs =>
    match reqStr kvs "id", reqStr kvs "email", reqDatetime kvs "created",
        reqDatetime kvs "updated", defDict kvs "fields", defStrList kvs "tags",
        defBool kvs "unsubscribed", defBool kvs "bounced", reqStr kvs "status",
        optStr kvs "source" with
    | .ok id, .ok email, .ok created, .ok updated, .ok fields, .ok tags,
        .ok unsubscribed, .ok bounced, .ok status, .ok source =>
      .ok ⟨id, email, created, updated, fields, tags, unsubscribed, bounced,
        status, source⟩
    | _, _, _, _, _, _, _, _, _, _ =>
      .error "subscriber: validation error"
  | _ => .error "subscriber: Input should be a valid dictionary"

/-- `Tag(**j)`. -/
def parseTag (j : Json) : Except String Tag :=
  match j with
  | Json.obj kvs => do
    let id ← reqStr kvs "id"
    let name ← reqStr kvs "name"
    let created ← reqDatetime kvs "created"
    let updated ← reqDatetime kvs "updated"
    let subscriberCount ← reqInt kvs "subscriber_count"
    .ok ⟨id, name, created, updated, subscriberCount⟩
  | _ => .error "tag: Input should be a valid dictionary"

/-- `Campaign(**j)`. -/
def parseCampaign (j : Json) : Except String Campaign :=
  match j with
  | Json.obj kvs => do
    let id ← reqStr kvs "id"
    let name ← reqStr kvs "name"
    let created ← reqDatetime kvs "created"
    let updated ← reqDatetime kvs "updated"
    let status ← reqStr kvs "status"
    let ty ← reqStr kvs "type"
    let subject ← optStr kvs "subject"
    let senderName ← optStr kvs "sender_name"
    let senderEmail ← optStr kvs "sender_email"
    .ok ⟨id, name, created, updated, status, ty, subject, senderName, senderEmail⟩
  | _ => .error "campaign: Input should be a valid dictionary"

/-- `CustomField(**j)`. -/
def parseCustomField (j : Json) : Except String CustomField :=
  match j with
  | Json.obj kvs => do
    let id ← reqStr kvs "id"
    let name ← reqStr kvs "name"
    let ty ← reqStr kvs "type"
    let created ← reqDatetime kvs "created"
    let updated ← reqDatetime kvs "updated"
    .ok ⟨id, name, ty, created, updated, defAny kvs "default_value"⟩
  | _ => .error "custom_field: Input should be a valid dictionary"

/-- `SubscribersResponse(**j)` (models.py lines 50-54): requires `data`
(a list of subscribers) AND `pagination`. -/
structure SubscribersResponse where
  data : List Subscriber
  pagination : Pagination
  deriving Repr

/-- Parse `SubscribersResponse(**j)`: `data` and `pagination` are both
required; either one missing or malformed fails validation. -/
def parseSubscribersResponse (j : Json) : Except String SubscribersResponse :=
  match j with
  | Json.obj kvs =>
    match alistGet kvs "data" with
    | some (Json.arr xs) =>
      match mapME parseSubscriber xs with
      | .error e => .error e
      | .ok data =>
        match alistGet kvs "pagination" with
        | some pj =>
          match parsePagination pj with
          | .error e => .error e
          | .ok pagination => .ok ⟨data, pagination⟩
        | none => .error "pagination: Field required"
    | some _ => .error "data: Input should be a valid list"
    | none => .error "data: Field required"
  | _ => .error "subscribers_response: Input should be a valid dictionary"

/-! ### Errors (`src/mcp_rule/errors.py`) and Python exceptions

`RuleAPIError` is the repository's one exception class.  `message` is typed
`Json` because `_request` sets it to `error_data.get("message", str(e))`,
whose value is whatever JSON value sits under the `message` key (a string in
every realistic body, but `dict.get` does not check).  Other Python
exceptions that the embedded code can raise are the remaining `PyErr`
constructors: `valueError` is the built-in `ValueError`, `validationError`
is pydantic's `ValidationError`, `typeError`/`jsonDecodeError` are the
respective built-in/json failures, and the `mcp*`/`notFoundError`
constructors are the `mcp` package's `MCPError`, `ValidationError` and
`NotFoundError`. -/

/-- `RuleAPIError` (errors.py lines 8-29). -/
structure RuleAPIError where
  status_code : Option Nat
  message : Json
  details : Json
  deriving Repr

/-- The Python exceptions the embedded code can raise.  `attributeError`
is the built-in `AttributeError` (raised e.g. by `error_data.get` when
`error_data` is not a dict). -/
inductive PyErr where
  | ruleAPIError : RuleAPIError → PyErr
  | valueError : String → PyErr
  | validationError : String → PyErr
  | typeError : String → PyErr
  | jsonDecodeError : String → PyErr
  | attributeError : String → PyErr
  | mcpError : String → PyErr
  | mcpValidationError : String → PyErr
  | notFoundError : String → PyErr
  deriving Repr

/-- The Python type name of the object a JSON value parses to (used in the
`AttributeError` message text). -/
def pyTypeName : Json → String
  | .null => "NoneType"
  | .bool _ => "bool"
  | .num _ => "int"
  | .str _ => "str"
  | .arr _ => "list"
  | .obj _ => "dict"

/-- Whether a JSON value is an object (parses to a Python dict). -/
def jsonIsObj : Json → Bool
  | .obj _ => true
  | _ => false

/-! ### Client construction (`src/mcp_rule/client.py`, `RuleClient.__init__`)

`__init__` (lines 31-57) stores the key, resolves the base URL and builds the
`httpx.Client` headers.  It performs no validation of any argument: every
call succeeds, which the totality of `ruleClientInit` reflects (there is no
failure path in the source to embed). -/

/-- The state `RuleClient.__init__` builds: stored configuration plus the
headers handed to `httpx.Client`. -/
structure RuleClient where
  api_key : String
  base_url : String
  timeout : Nat
  headers : List (String × String)
  deriving Repr, DecidableEq

/-- `RuleClient.BASE_URL`. -/
def BASE_URL : String := "https://app.rule.io/api/v3"

/-- Python `x or default` for an `Optional[str]` `x`: the default is used
when `x` is `None` OR the empty string (both are falsy). -/
def pyOrDefault (v : Option String) (dflt : String) : String :=
  match v with
  | none => dflt
  | some s => if s = "" then dflt else s

/-- `RuleClient.__init__(api_key, base_url=None, timeout=30)`:
`self.base_url = base_url or self.BASE_URL` (client.py line 46) is a
truthiness fallback, so an empty-string `base_url` also falls back. -/
def ruleClientInit (apiKey : String) (baseUrl : Option String := none)
    (timeout : Nat := 30) : RuleClient :=
  { api_key := apiKey
    base_url := pyOrDefault baseUrl BASE_URL
    timeout := timeout
    headers :=
      [("Authorization", "Bearer " ++ apiKey),
       ("Content-Type", "application/json"),
       ("Accept", "application/json")] }

/-! ### The request primitive (`RuleClient._request`, client.py lines 59-120)

The HTTP round trip is the environment: `HttpOutcome` is what the one
underlying `httpx` call produces — a response (status, body text, and the
body's JSON parse when it has one) or a transport failure
(`httpx.RequestError`).  `_request` is embedded as a function of the method
and that outcome; `excStr` stands for `str(e)` of the `httpx.HTTPStatusError`
that `raise_for_status()` raises on a status ≥ 400 (a text like
"Server error '500 Internal Server Error' for url ...", produced by httpx,
never equal to the response body).  The result records whether the network
was consulted at all, since the unsupported-method `ValueError` fires before
any verb dispatch reaches `httpx`. -/

/-- One HTTP response as seen by `_request`: status code, raw text, and the
JSON parse of the body (`none` when the body is not JSON). -/
structure HttpResponse where
  status : Nat
  text : String
  bodyJson : Option Json
  deriving Repr

/-- What the underlying `httpx` call produces. -/
inductive HttpOutcome where
  | response : HttpResponse → HttpOutcome
  | transportError : String → HttpOutcome
  deriving Repr

/-- Result of `_request`: whether an HTTP verb was dispatched to `httpx`,
and the returned JSON (`none` for a 204) or the raised exception. -/
structure RequestResult where
  networkCalled : Bool
  outcome : Except PyErr (Option Json)
  deriving Repr

/-- The `except httpx.HTTPStatusError` branch (client.py lines 102-113):
`error_data` is the parsed JSON body, or `{"detail": text}` when the body is
not JSON, and `error_data.get("message", str(e))` builds the `RuleAPIError`.
`.get` exists only on dicts: when the body parses to a NON-object JSON value
(list, string, number, null, bool), `error_data.get` raises `AttributeError`
and no `RuleAPIError` is constructed. -/
def statusErrorRaise (r : HttpResponse) (excStr : String) : PyErr :=
  match r.bodyJson with
  | some (Json.obj kvs) =>
    .ruleAPIError
      { status_code := some r.status
        message := (alistGet kvs "message").getD (Json.str excStr)
        details := Json.obj kvs }
  | some j =>
    .attributeError (pyTypeName j ++ " object has no attribute get")
  | none =>
    .ruleAPIError
      { status_code := some r.status
        message := Json.str excStr
        details := Json.obj [("detail", Json.str r.text)] }

/-- ASCII uppercase of one character. -/
def asciiUpper (c : Char) : Char :=
  if 97 ≤ c.toNat ∧ c.toNat ≤ 122 then Char.ofNat (c.toNat - 32) else c

/-- Python's `str.upper()` (ASCII letters suffice for HTTP verbs). -/
def pyUpper (s : String) : String := ⟨s.data.map asciiUpper⟩

/-- `RuleClient._request(method, path, params, data)` against a given HTTP
outcome.  `params`/`data` are carried for fidelity of the call shape; the
response is the oracle `http`. -/
def isSupportedMethod (method : String) : Bool :=
  pyUpper method = "GET" || pyUpper method = "POST" ||
    pyUpper method = "PUT" || pyUpper method = "DELETE"

def rcRequest (method : String) (_path : String)
    (_params : List (String × Json) := []) (_data : Option Json := none)
    (http : HttpOutcome) (excStr : String) : RequestResult :=
  if isSupportedMethod method then
    { networkCalled := true
      outcome :=
        match http with
        | .transportError cause =>
          .error (.ruleAPIError
            { status_code := none
              message := Json.str ("Request error: " ++ cause)
              details := Json.obj [] })
        | .response r =>
          if r.status ≥ 400 then
            .error (statusErrorRaise r excStr)
          else if r.status = 204 then
            .ok none
          else
            match r.bodyJson with
            | some j => .ok (some j)
            | none => .error (.jsonDecodeError "Expecting value") }
  else
    { networkCalled := false
      outcome := .error (.valueError ("Unsupported HTTP method: " ++ method)) }

/-! ### Typed list operations (client.py lines 124-149, 234-247, 265-278,
282-295)

Each wraps `_request` on the corresponding GET endpoint.  `get_subscribers`
validates the whole envelope with `SubscribersResponse(**response)` —
pydantic raises `ValidationError` when `data` or `pagination` is missing or
malformed; `**response` on a non-dict raises `TypeError` first.  The other
three call `response.get("data", [])` and build each entity, so a missing
`data` key yields the empty list. -/

/-- `RuleClient.get_subscribers(page, limit, **filters)` applied to what the
HTTP layer returned for `GET /subscribers`. -/
def rcGetSubscribers (http : HttpOutcome) (excStr : String)
    (page : Int := 1) (limit : Int := 100)
    (filters : List (String × Json) := []) :
    Except PyErr (List Subscriber) :=
  let params := [("page", Json.num page), ("limit", Json.num limit)] ++
    filters.filter (fun kv => match kv.2 with | Json.null => false | _ => true)
  match (rcRequest "GET" "/subscribers" params none http excStr).outcome with
  | .error e => .error e
  | .ok none => .error (.typeError "argument of type NoneType is not a mapping")
  | .ok (some j) =>
    match j with
    | Json.obj _ =>
      match parseSubscribersResponse j with
      | .ok resp => .ok resp.data
      | .error m => .error (.validationError m)
    | _ => .error (.typeError "argument of type non-mapping is not a mapping")

/-- The common body of the three `response.get("data", [])` list operations:
look up `data` (default `[]`) and construct one entity per element. -/
def unwrapDataList {α : Type} (parse : Json → Except String α)
    (requested : RequestResult) : Except PyErr (List α) :=
  match requested.outcome with
  | .error e => .error e
  | .ok none => .error (.typeError "NoneType has no attribute get")
  | .ok (some j) =>
    match j with
    | Json.obj kvs =>
      match (alistGet kvs "data").getD (Json.arr []) with
      | Json.arr items =>
        match mapME parse items with
        | .ok xs => .ok xs
        | .error m => .error (.validationError m)
      | _ => .error (.typeError "data value is not iterable of mappings")
    | _ => .error (.typeError "response has no attribute get")

/-- `RuleClient.get_tags(page, limit)`. -/
def rcGetTags (http : HttpOutcome) (excStr : String)
    (page : Int := 1) (limit : Int := 100) : Except PyErr (List Tag) :=
  let params := [("page", Json.num page), ("limit", Json.num limit)]
  unwrapDataList parseTag (rcRequest "GET" "/tags" params none http excStr)

/-- `RuleClient.get_campaigns(page, limit)`. -/
def rcGetCampaigns (http : HttpOutcome) (excStr : String)
    (page : Int := 1) (limit : Int := 100) : Except PyErr (List Campaign) :=
  let params := [("page", Json.num page), ("limit", Json.num limit)]
  unwrapDataList parseCampaign (rcRequest "GET" "/campaigns" params none http excStr)

/-- `RuleClient.get_custom_fields(page, limit)`. -/
def rcGetCustomFields (http : HttpOutcome) (excStr : String)
    (page : Int := 1) (limit : Int := 100) : Except PyErr (List CustomField) :=
  let params := [("page", Json.num page), ("limit", Json.num limit)]
  unwrapDataList parseCustomField (rcRequest "GET" "/fields" params none http excStr)

/-- `SubscriberResponse(**j)` (models.py lines 44-47): requires `data`, one
subscriber. -/
def parseSubscriberResponse (j : Json) : Except String Subscriber :=
  match j with
  | Json.obj kvs =>
    match alistGet kvs "data" with
    | some dj => parseSubscriber dj
    | none => .error "data: Field required"
  | _ => .error "subscriber_response: Input should be a valid dictionary"

/-- `RuleClient.get_subscriber(subscriber_id)` (client.py lines 151-163). -/
def rcGetSubscriber (subscriberId : String) (http : HttpOutcome)
    (excStr : String) : Except PyErr Subscriber :=
  match (rcRequest "GET" ("/subscribers/" ++ subscriberId) [] none http excStr).outcome with
  | .error e => .error e
  | .ok none => .error (.typeError "argument of type NoneType is not a mapping")
  | .ok (some j) =>
    match j with
    | Json.obj _ =>
      match parseSubscriberResponse j with
      | .ok s => .ok s
      | .error m => .error (.validationError m)
    | _ => .error (.typeError "argument of type non-mapping is not a mapping")

/-! ### MCP layer (`src/mcp_rule/mcp.py`)

The `mcp` package's `Context` is the per-request dictionary built as
`Context({"client": client})`; a handler reads `context.get("client")` and
raises `MCPError` when it is absent.  Handlers call methods on that bound
client; the embedding passes a handler the client-method behaviour as a
function argument (`fetch`), exactly as the unit tests mock it.  `model_dump`
of an entity is the corresponding `*ToJson` function (datetimes render as
their validated source text, see module comment). -/

/-- Per-request context: `Context({"client": client})`, or one without a
client. -/
structure Context where
  client : Option RuleClient
  deriving Repr

/-- `SearchParams` (mcp.py lines 39-44). -/
structure SearchParams where
  page : Option Int := some 1
  limit : Option Int := some 100
  filters : Option (List (String × String)) := none
  deriving Repr, DecidableEq

/-- `model_dump()` of a `Subscriber`, in field-declaration order. -/
def subscriberToJson (s : Subscriber) : Json :=
  Json.obj
    [("id", Json.str s.id), ("email", Json.str s.email),
     ("created", Json.str s.created), ("updated", Json.str s.updated),
     ("fields", Json.obj s.fields),
     ("tags", Json.arr (s.tags.map Json.str)),
     ("unsubscribed", Json.bool s.unsubscribed),
     ("bounced", Json.bool s.bounced),
     ("status", Json.str s.status),
     ("source", match s.source with | some x => Json.str x | none => Json.null)]

/-- `model_dump()` of a `Tag`. -/
def tagToJson (t : Tag) : Json :=
  Json.obj
    [("id", Json.str t.id), ("name", Json.str t.name),
     ("created", Json.str t.created), ("updated", Json.str t.updated),
     ("subscriber_count", Json.num t.subscriber_count)]

/-- `model_dump()` of a `Campaign`. -/
def campaignToJson (c : Campaign) : Json :=
  Json.obj
    [("id", Json.str c.id), ("name", Json.str c.name),
     ("created", Json.str c.created), ("updated", Json.str c.updated),
     ("status", Json.str c.status), ("type", Json.str c.type),
     ("subject", match c.subject with | some x => Json.str x | none => Json.null),
     ("sender_name", match c.sender_name with | some x => Json.str x | none => Json.null),
     ("sender_email", match c.sender_email with | some x => Json.str x | none => Json.null)]

/-- `model_dump()` of a `CustomField`. -/
def customFieldToJson (f : CustomField) : Json :=
  Json.obj
    [("id", Json.str f.id), ("name", Json.str f.name),
     ("type", Json.str f.type),
     ("created", Json.str f.created), ("updated", Json.str f.updated),
     ("default_value", f.default_value)]

/-- `None`-aware int for echoing `params.page` / `params.limit`. -/
def jsonOfOptInt : Option Int → Json
  | none => Json.null
  | some n => Json.num n

/-- `get_subscribers` handler (mcp.py lines 75-96): `fetch` is the bound
`client.get_subscribers`, receiving `page`, `limit` and the filters. -/
def getSubscribersHandler (ctx : Context) (params : SearchParams)
    (fetch : RuleClient → Option Int → Option Int → List (String × String) →
      Except PyErr (List Subscriber)) : Except PyErr Json :=
  match ctx.client with
  | none => .error (.mcpError "Rule client not initialized")
  | some c =>
    match fetch c params.page params.limit (params.filters.getD []) with
    | .error e => .error e
    | .ok subscribers =>
      .ok (Json.obj
        [("subscribers", Json.arr (subscribers.map subscriberToJson)),
         ("page", jsonOfOptInt params.page),
         ("limit", jsonOfOptInt params.limit),
         ("total", Json.num subscribers.length)])

/-- `get_subscriber` handler (mcp.py lines 99-112): wraps the client call in
`try/except Exception` and re-raises
`NotFoundError(f"Subscriber not found: \x7bstr(e)\x7d")` on ANY failure.
`strOfErr` is the environment's `str(e)` rendering of the caught exception
(Python object stringification), supplied like `excStr` in `_request`. -/
def getSubscriberHandler (ctx : Context) (subscriberId : String)
    (fetch : RuleClient → String → Except PyErr Subscriber)
    (strOfErr : PyErr → String) : Except PyErr Json :=
  match ctx.client with
  | none => .error (.mcpError "Rule client not initialized")
  | some c =>
    match fetch c subscriberId with
    | .ok s => .ok (subscriberToJson s)
    | .error e => .error (.notFoundError ("Subscriber not found: " ++ strOfErr e))

/-- `get_tags` handler (mcp.py lines 169-188). -/
def getTagsHandler (ctx : Context) (params : SearchParams)
    (fetch : RuleClient → Option Int → Option Int → Except PyErr (List Tag)) :
    Except PyErr Json :=
  match ctx.client with
  | none => .error (.mcpError "Rule client not initialized")
  | some c =>
    match fetch c params.page params.limit with
    | .error e => .error e
    | .ok tags =>
      .ok (Json.obj
        [("tags", Json.arr (tags.map tagToJson)),
         ("page", jsonOfOptInt params.page),
         ("limit", jsonOfOptInt params.limit),
         ("total", Json.num tags.length)])

/-- `get_campaigns` handler (mcp.py lines 204-223). -/
def getCampaignsHandler (ctx : Context) (params : SearchParams)
    (fetch : RuleClient → Option Int → Option Int → Except PyErr (List Campaign)) :
    Except PyErr Json :=
  match ctx.client with
  | none => .error (.mcpError "Rule client not initialized")
  | some c =>
    match fetch c params.page params.limit with
    | .error e => .error e
    | .ok campaigns =>
      .ok (Json.obj
        [("campaigns", Json.arr (campaigns.map campaignToJson)),
         ("page", jsonOfOptInt params.page),
         ("limit", jsonOfOptInt params.limit),
         ("total", Json.num campaigns.length)])

/-- `get_custom_fields` handler (mcp.py lines 226-245). -/
def getCustomFieldsHandler (ctx : Context) (params : SearchParams)
    (fetch : RuleClient → Option Int → Option Int → Except PyErr (List CustomField)) :
    Except PyErr Json :=
  match ctx.client with
  | none => .error (.mcpError "Rule client not initialized")
  | some c =>
    match fetch c params.page params.limit with
    | .error e => .error e
    | .ok fields =>
      .ok (Json.obj
        [("fields", Json.arr (fields.map customFieldToJson)),
         ("page", jsonOfOptInt params.page),
         ("limit", jsonOfOptInt params.limit),
         ("total", Json.num fields.length)])

/-- Result of `handle_rule_mcp`: the clients it constructed (in order) and
the produced value or raised exception. -/
structure McpOutcome where
  clientsConstructed : List RuleClient
  result : Except PyErr Json
  deriving Repr

/-- `handle_rule_mcp(request)` (mcp.py lines 269-287).  `metadata` is
`request.metadata` (`None` or a string-valued dict); `dispatch` is
`router.handle_request(request, context)`, abstract here, applied to the
context this function builds.  `metadata.get("api_key")` yields `None` when
the key is absent, and `if not api_key` rejects both `None` and the empty
string before any `RuleClient` is constructed. -/
def handleRuleMcp (metadata : Option (List (String × String)))
    (dispatch : Context → Except PyErr Json) : McpOutcome :=
  let md := metadata.getD []
  match md.lookup "api_key" with
  | none =>
    { clientsConstructed := []
      result := .error (.mcpValidationError "API key is required") }
  | some k =>
    if k = "" then
      { clientsConstructed := []
        result := .error (.mcpValidationError "API key is required") }
    else
      let client := ruleClientInit k
      { clientsConstructed := [client]
        result := dispatch { client := some client } }

/-! ### CLI (`src/mcp_rule/cli.py`)

`main(args)` runs after `argparse` has parsed `args`.  The argument parser is
embedded by `parseCliArgs`, following argparse's documented behaviour for the
flags `cli.py` registers: `--version` (store_true), `--api-key VALUE`, one
positional subcommand restricted to the choices `subscribers`/`tags`/
`campaigns` with their own flags; any token violating the grammar — an
unrecognized subcommand in particular — makes `parse_args` print usage plus a
one-line error to **stderr** and exit the process with status **2** (argparse
`parser.error`), so `main`'s own body never runs.  The client calls a
successful invocation performs are oracles (`subs`, `gotSub`, `createdSub`,
`tags`, `camps`): `cli.py` does not catch client exceptions, and every claim
about the CLI concerns parse failures and successful calls. -/

/-- The round-trip relation of C6: every field of a parsed subscriber equals
the corresponding field of the JSON object it came from, with the model's
declared defaults when an optional key is absent. -/
def subscriberMatchesJson (s : Subscriber) (j : Json) : Prop :=
  j.getKey "id" = some (Json.str s.id) ∧
  j.getKey "email" = some (Json.str s.email) ∧
  j.getKey "created" = some (Json.str s.created) ∧
  j.getKey "updated" = some (Json.str s.updated) ∧
  (j.getKey "fields" = some (Json.obj s.fields) ∨
    (j.getKey "fields" = none ∧ s.fields = [])) ∧
  (j.getKey "tags" = some (Json.arr (s.tags.map Json.str)) ∨
    (j.getKey "tags" = none ∧ s.tags = [])) ∧
  (j.getKey "unsubscribed" = some (Json.bool s.unsubscribed) ∨
    (j.getKey "unsubscribed" = none ∧ s.unsubscribed = false)) ∧
  (j.getKey "bounced" = some (Json.bool s.bounced) ∨
    (j.getKey "bounced" = none ∧ s.bounced = false)) ∧
  j.getKey "status" = some (Json.str s.status) ∧
  (match s.source with
   | some v => j.getKey "source" = some (Json.str v)
   | none => j.getKey "source" = none ∨ j.getKey "source" = some Json.null)

/-! ## Shared lemmas -/

/-- Success of `mapME` preserves length. -/
theorem mapME_ok_length {α β : Type} {f : α → Except String β} :
    ∀ {xs : List α} {ys : List β}, mapME f xs = .ok ys → ys.length = xs.length := by
  intro xs
  induction xs with
  | nil => intro ys h; simp only [mapME] at h; cases h; rfl
  | cons x xs ih =>
    intro ys h
    simp only [mapME] at h
    cases hx : f x with
    | error e => rw [hx] at h; cases h
    | ok y =>
      rw [hx] at h
      cases hm : mapME f xs with
      | error e => rw [hm] at h; cases h
      | ok ys' =>
        rw [hm] at h
        cases h
        simp [ih hm]

/-- Success of `mapME` means element-wise success, in order. -/
theorem mapME_ok_get {α β : Type} {f : α → Except String β} :
    ∀ {xs : List α} {ys : List β}, mapME f xs = .ok ys →
      ∀ i (h1 : i < xs.length) (h2 : i < ys.length),
        f (xs.get ⟨i, h1⟩) = .ok (ys.get ⟨i, h2⟩) := by
  intro xs
  induction xs with
  | nil => intro ys h i h1 h2; exact absurd h1 (by simp)
  | cons x xs ih =>
    intro ys h i h1 h2
    simp only [mapME] at h
    cases hx : f x with
    | error e => rw [hx] at h; cases h
    | ok y =>
      rw [hx] at h
      cases hm : mapME f xs with
      | error e => rw [hm] at h; cases h
      | ok ys' =>
        rw [hm] at h
        cases h
        match i with
        | 0 => simpa using hx
        | n + 1 => exact ih hm n (by simpa using h1) (by simpa using h2)

/-- Inverting a successful required-string field. -/
theorem reqStr_ok {kvs : List (String × Json)} {k v : String}
    (h : reqStr kvs k = .ok v) : alistGet kvs k = some (Json.str v) := by
  unfold reqStr at h
  split at h <;> simp_all

/-- Inverting a successful datetime field. -/
theorem reqDatetime_ok {kvs : List (String × Json)} {k v : String}
    (h : reqDatetime kvs k = .ok v) : alistGet kvs k = some (Json.str v) := by
  unfold reqDatetime at h
  split at h
  · split at h <;> simp_all
  · cases h
  · cases h

/-- Inverting a successful `Dict[str, Any] = {}` field. -/
theorem defDict_ok {kvs : List (String × Json)} {k : String}
    {fs : List (String × Json)} (h : defDict kvs k = .ok fs) :
    alistGet kvs k = some (Json.obj fs) ∨ (alistGet kvs k = none ∧ fs = []) := by
  unfold defDict at h
  split at h <;> simp_all

/-- Inverting a successful `bool = False` field. -/
theorem defBool_ok {kvs : List (String × Json)} {k : String} {b : Bool}
    (h : defBool kvs k = .ok b) :
    alistGet kvs k = some (Json.bool b) ∨ (alistGet kvs k = none ∧ b = false) := by
  unfold defBool at h
  split at h <;> simp_all

/-- Inverting a successful string-list element. -/
theorem asStrElem_ok {k : String} {x : Json} {v : String}
    (h : asStrElem k x = .ok v) : x = Json.str v := by
  unfold asStrElem at h
  split at h <;> simp_all

/-- Inverting a successful string-list validation. -/
theorem mapME_asStrElem_ok {k : String} :
    ∀ {xs : List Json} {ts : List String},
      mapME (asStrElem k) xs = .ok ts → xs = ts.map Json.str := by
  intro xs
  induction xs with
  | nil => intro ts h; simp only [mapME] at h; cases h; rfl
  | cons x xs ih =>
    intro ts h
    simp only [mapME] at h
    cases hx : asStrElem k x with
    | error e => rw [hx] at h; cases h
    | ok y =>
      rw [hx] at h
      cases hm : mapME (asStrElem k) xs with
      | error e => rw [hm] at h; cases h
      | ok ys =>
        rw [hm] at h
        cases h
        simp [asStrElem_ok hx, ih hm]

/-- Inverting a successful `List[str] = []` field. -/
theorem defStrList_ok {kvs : List (String × Json)} {k : String} {ts : List String}
    (h : defStrList kvs k = .ok ts) :
    alistGet kvs k = some (Json.arr (ts.map Json.str)) ∨
      (alistGet kvs k = none ∧ ts = []) := by
  unfold defStrList at h
  split at h
  · cases h; simp_all
  · left
    rename_i heq
    rw [heq, mapME_asStrElem_ok h]
  · cases h

/-- Inverting a successful `Optional[str] = None` field. -/
theorem optStr_ok {kvs : List (String × Json)} {k : String} {o : Option String}
    (h : optStr kvs k = .ok o) :
    (∀ v, o = some v → alistGet kvs k = some (Json.str v)) ∧
    (o = none → alistGet kvs k = none ∨ alistGet kvs k = some Json.null) := by
  unfold optStr at h
  split at h <;> cases h <;> simp_all

/-- A successfully parsed subscriber's fields equal the JSON object's. -/
theorem parseSubscriber_ok {j : Json} {s : Subscriber}
    (h : parseSubscriber j = .ok s) : subscriberMatchesJson s j := by
  unfold parseSubscriber at h
  split at h
  · split at h
    · cases h
      rename_i id email created updated fields tags uns bounced status source
        hid hemail hcreated hupdated hfields htags huns hbounced hstatus hsource
      refine ⟨?_, ?_, ?_, ?_, ?_, ?_, ?_, ?_, ?_, ?_⟩ <;>
        simp only [Json.getKey, subscriberMatchesJson]
      · exact reqStr_ok hid
      · exact reqStr_ok hemail
      · exact reqDatetime_ok hcreated
      · exact reqDatetime_ok hupdated
      · exact defDict_ok hfields
      · exact defStrList_ok htags
      · exact defBool_ok huns
      · exact defBool_ok hbounced
      · exact reqStr_ok hstatus
      · obtain ⟨h1, h2⟩ := optStr_ok hsource
        cases source with
        | some v => exact h1 v rfl
        | none => exact h2 rfl
    · cases h
  · cases h

/-- A `GET` whose response is a 200 with a JSON body hands that body back. -/
theorem rcRequest_get_200 (path : String) (params : List (String × Json))
    (d : Option Json) (t : String) (j : Json) (excStr : String) :
    rcRequest "GET" path params d (.response ⟨200, t, some j⟩) excStr =
      { networkCalled := true, outcome := .ok (some j) } := rfl

/-- A `GET` whose response status is ≥ 400 raises whatever the
`except httpx.HTTPStatusError` branch raises. -/
theorem rcRequest_get_status_error (path : String) (params : List (String × Json))
    (d : Option Json) (r : HttpResponse) (excStr : String) (h : 400 ≤ r.status) :
    rcRequest "GET" path params d (.response r) excStr =
      { networkCalled := true
        outcome := .error (statusErrorRaise r excStr) } := by
  have hs : isSupportedMethod "GET" = true := by decide
  simp [rcRequest, hs, h]

/-! ## Claims -/

/-- C1, counterexample: on a 200 response whose JSON body is `{}` (no
`data` key) `get_subscribers` raises pydantic `ValidationError` instead of
returning the empty sequence the claim promises for every list-returning
operation; `get_tags` on the same body does return `[]`. -/
theorem C1_counterexample :
    rcGetSubscribers (.response ⟨200, "{}", some (Json.obj [])⟩) "exc" 1 100 [] =
      .error (.validationError "data: Field required") ∧
    rcGetTags (.response ⟨200, "{}", some (Json.obj [])⟩) "exc" 1 100 = .ok [] :=
  ⟨rfl, rfl⟩

/-- C1, amended: on any 200 JSON-object response lacking a `data` key,
`get_tags`, `get_campaigns` and `get_custom_fields` return the empty
sequence, while `get_subscribers` raises a validation error (its envelope
model requires `data`). -/
theorem C1_missing_data_key (kvs : List (String × Json)) (t excStr : String)
    (page limit : Int) (filters : List (String × Json))
    (h : alistGet kvs "data" = none) :
    rcGetTags (.response ⟨200, t, some (Json.obj kvs)⟩) excStr page limit = .ok [] ∧
    rcGetCampaigns (.response ⟨200, t, some (Json.obj kvs)⟩) excStr page limit = .ok [] ∧
    rcGetCustomFields (.response ⟨200, t, some (Json.obj kvs)⟩) excStr page limit = .ok [] ∧
    rcGetSubscribers (.response ⟨200, t, some (Json.obj kvs)⟩) excStr page limit filters =
      .error (.validationError "data: Field required") := by
  refine ⟨?_, ?_, ?_, ?_⟩ <;>
    simp [rcGetTags, rcGetCampaigns, rcGetCustomFields, rcGetSubscribers,
      unwrapDataList, rcRequest_get_200, h, mapME, parseSubscribersResponse]

/-- C1, witness for the amended theorem at the body `{"pagination": {}}`. -/
theorem C1_missing_data_key_witness :
    alistGet [("pagination", Json.obj [])] "data" = none ∧
    rcGetTags (.response ⟨200, "", some (Json.obj [("pagination", Json.obj [])])⟩)
      "exc" 1 100 = .ok [] :=
  ⟨rfl, (C1_missing_data_key [("pagination", Json.obj [])] "" "exc" 1 100 [] rfl).1⟩

/-- C2, counterexample: a 500 response whose body `"oops"` is not JSON
yields an `ApiError` whose message is `str(e)` — the `httpx.HTTPStatusError`
text — not the raw response text the claim promises. -/
theorem C2_counterexample :
    (rcRequest "GET" "/subscribers" [] none
        (.response ⟨500, "oops", none⟩) "Server error for url").outcome =
      .error (.ruleAPIError
        { status_code := some 500
          message := Json.str "Server error for url"
          details := Json.obj [("detail", Json.str "oops")] }) ∧
    "Server error for url" ≠ "oops" :=
  ⟨rfl, by decide⟩

/-- C2, amended: on a response with status ≥ 400, when the body parses as a
JSON OBJECT the primitive raises `RuleAPIError` carrying that status, with
message equal to the object's `message` value when present and `str(e)` of
the `HTTPStatusError` otherwise, and details equal to the object; when the
body does not parse as JSON, the message is `str(e)` (not the raw response
text) and details is `{"detail": raw text}`; when the body parses as a
non-object JSON value, `error_data.get` raises `AttributeError` instead and
no `RuleAPIError` is constructed. -/
theorem C2_status_error (path : String) (params : List (String × Json))
    (d : Option Json) (r : HttpResponse) (excStr : String) (h : 400 ≤ r.status) :
    (∀ kvs m, r.bodyJson = some (Json.obj kvs) → alistGet kvs "message" = some m →
      (rcRequest "GET" path params d (.response r) excStr).outcome =
        .error (.ruleAPIError
          { status_code := some r.status, message := m, details := Json.obj kvs })) ∧
    (∀ kvs, r.bodyJson = some (Json.obj kvs) → alistGet kvs "message" = none →
      (rcRequest "GET" path params d (.response r) excStr).outcome =
        .error (.ruleAPIError
          { status_code := some r.status, message := Json.str excStr
            details := Json.obj kvs })) ∧
    (r.bodyJson = none →
      (rcRequest "GET" path params d (.response r) excStr).outcome =
        .error (.ruleAPIError
          { status_code := some r.status, message := Json.str excStr
            details := Json.obj [("detail", Json.str r.text)] })) ∧
    (∀ j, r.bodyJson = some j → jsonIsObj j = false →
      (rcRequest "GET" path params d (.response r) excStr).outcome =
        .error (.attributeError (pyTypeName j ++ " object has no attribute get"))) := by
  rw [rcRequest_get_status_error _ _ _ _ _ h]
  refine ⟨?_, ?_, ?_, ?_⟩
  · intro kvs m hj hm
    simp [statusErrorRaise, hj, hm]
  · intro kvs hj hm
    simp [statusErrorRaise, hj, hm]
  · intro hj
    simp [statusErrorRaise, hj]
  · intro j hj hno
    cases j <;> simp_all [statusErrorRaise, jsonIsObj]

/-- C2, witness: the amended theorem at the spec's own example (a 404 whose
body is `{"message": "Not found"}` gives message "Not found") and at a
non-JSON 500 body (message is the exception string). -/
theorem C2_status_error_witness :
    (400 ≤ 404) ∧
    (rcRequest "GET" "/subscribers" [] none
        (.response ⟨404, "raw body", some (Json.obj [("message", Json.str "Not found")])⟩)
        "Client error").outcome =
      .error (.ruleAPIError
        { status_code := some 404, message := Json.str "Not found"
          details := Json.obj [("message", Json.str "Not found")] }) ∧
    (rcRequest "GET" "/subscribers" [] none
        (.response ⟨500, "oops", none⟩) "Server error").outcome =
      .error (.ruleAPIError
        { status_code := some 500, message := Json.str "Server error"
          details := Json.obj [("detail", Json.str "oops")] }) := by
  refine ⟨by decide, ?_, ?_⟩
  · exact (C2_status_error "/subscribers" [] none
      ⟨404, "raw body", some (Json.obj [("message", Json.str "Not found")])⟩
      "Client error" (by decide)).1 [("message", Json.str "Not found")]
      (Json.str "Not found") rfl rfl
  · exact (C2_status_error "/subscribers" [] none
      ⟨500, "oops", none⟩ "Server error" (by decide)).2.2.1 rfl

/-- C3, counterexample: constructing a client with the empty API key
succeeds — `__init__` validates nothing, so no `ConfigError` is raised (none
exists in the code); the client simply carries the empty bearer token. -/
theorem C3_counterexample :
    ruleClientInit "" none 30 =
      { api_key := ""
        base_url := "https://app.rule.io/api/v3"
        timeout := 30
        headers := [("Authorization", "Bearer "),
          ("Content-Type", "application/json"),
          ("Accept", "application/json")] } := rfl

/-- C3, amended: `RuleClient.__init__` performs no API-key validation;
construction succeeds for every key, empty or not, storing the key and the
bearer headers; `base_url or self.BASE_URL` stores a given non-empty base
URL and falls back to the default for `None` or the falsy empty string. -/
theorem C3_init_never_fails (apiKey : String) (baseUrl : Option String) (timeout : Nat) :
    (ruleClientInit apiKey baseUrl timeout).api_key = apiKey ∧
    (ruleClientInit apiKey baseUrl timeout).timeout = timeout ∧
    (∀ b, baseUrl = some b → b ≠ "" →
      (ruleClientInit apiKey baseUrl timeout).base_url = b) ∧
    (baseUrl = none ∨ baseUrl = some "" →
      (ruleClientInit apiKey baseUrl timeout).base_url = BASE_URL) ∧
    (ruleClientInit apiKey baseUrl timeout).headers =
      [("Authorization", "Bearer " ++ apiKey),
       ("Content-Type", "application/json"),
       ("Accept", "application/json")] := by
  refine ⟨rfl, rfl, ?_, ?_, rfl⟩
  · intro b hb hne
    simp [ruleClientInit, pyOrDefault, hb, hne]
  · intro hb
    cases hb with
    | inl hn => simp [ruleClientInit, pyOrDefault, hn]
    | inr he => simp [ruleClientInit, pyOrDefault, he]

/-- C3, witness: construction with the empty key succeeds; an explicit
empty-string base URL falls back to the default, a non-empty one is kept. -/
theorem C3_init_never_fails_witness :
    (ruleClientInit "" (some "") 30).api_key = "" ∧
    (ruleClientInit "" (some "") 30).base_url = BASE_URL ∧
    (ruleClientInit "k" (some "http://x") 30).base_url = "http://x" :=
  ⟨(C3_init_never_fails "" (some "") 30).1,
   (C3_init_never_fails "" (some "") 30).2.2.2.1 (Or.inr rfl),
   (C3_init_never_fails "k" (some "http://x") 30).2.2.1 "http://x" rfl (by decide)⟩

/-- C4, counterexample: the `GET /subscribers/{id}` handler turns a 500
`RuleAPIError` from the client into `NotFoundError` — the `except Exception`
at mcp.py lines 111-112 converts every failure, not only 404s. -/
theorem C4_counterexample :
    getSubscriberHandler { client := some (ruleClientInit "key") } "42"
      (fun _ _ => .error (.ruleAPIError
        { status_code := some 500
          message := Json.str "Internal Server Error"
          details := Json.obj [] }))
      (fun _ => "Internal Server Error") =
      .error (.notFoundError "Subscriber not found: Internal Server Error") := rfl

/-- C4, amended: the `GET /subscribers/{id}` handler converts EVERY client
failure — transport errors and 5xx `ApiError`s included — into
`NotFoundError("Subscriber not found: " + str(e))`, whatever the rendering
`str(e)` produces; no `ApiError` from this handler reaches the caller
verbatim. -/
theorem C4_get_subscriber_wraps_every_failure (ctx : Context) (c : RuleClient)
    (subscriberId : String) (fetch : RuleClient → String → Except PyErr Subscriber)
    (strOfErr : PyErr → String) (e : PyErr)
    (hc : ctx.client = some c) (hf : fetch c subscriberId = .error e) :
    getSubscriberHandler ctx subscriberId fetch strOfErr =
      .error (.notFoundError ("Subscriber not found: " ++ strOfErr e)) := by
  simp [getSubscriberHandler, hc, hf]

/-- C4, witness for the amended theorem: a transport-level failure (null
status) is also wrapped into `NotFoundError`. -/
theorem C4_wraps_witness :
    getSubscriberHandler { client := some (ruleClientInit "key") } "7"
      (fun _ _ => .error (.ruleAPIError
        { status_code := none
          message := Json.str "Request error: timeout"
          details := Json.obj [] }))
      (fun _ => "Request error: timeout") =
      .error (.notFoundError "Subscriber not found: Request error: timeout") := by
  rw [C4_get_subscriber_wraps_every_failure
    { client := some (ruleClientInit "key") } (ruleClientInit "key") "7"
    (fun _ _ => .error (.ruleAPIError
      { status_code := none, message := Json.str "Request error: timeout",
        details := Json.obj [] }))
    (fun _ => "Request error: timeout")
    (.ruleAPIError
      { status_code := none, message := Json.str "Request error: timeout",
        details := Json.obj [] }) rfl rfl]
  rfl

/-- C5, counterexample: a request whose metadata CONTAINS `api_key` with the
empty-string value is also rejected with `ValidationError` and no client is
constructed (`if not api_key` tests truthiness, not presence), contradicting
the claim that a present key always leads to one constructed client. -/
theorem C5_counterexample :
    [("api_key", "")].lookup "api_key" = some "" ∧
    handleRuleMcp (some [("api_key", "")]) (fun _ => .ok Json.null) =
      { clientsConstructed := []
        result := .error (.mcpValidationError "API key is required") } :=
  ⟨rfl, rfl⟩

/-- C5, amended: dispatch with no `api_key` in the metadata fails with
`ValidationError("API key is required")` and constructs no client; when the
key is present AND non-empty, exactly one fresh client is constructed with
that key and handed to the router dispatch inside the per-request context. -/
theorem C5_api_key_gate (metadata : Option (List (String × String)))
    (dispatch : Context → Except PyErr Json) :
    ((metadata.getD []).lookup "api_key" = none →
      handleRuleMcp metadata dispatch =
        { clientsConstructed := []
          result := .error (.mcpValidationError "API key is required") }) ∧
    (∀ k, (metadata.getD []).lookup "api_key" = some k → k ≠ "" →
      handleRuleMcp metadata dispatch =
        { clientsConstructed := [ruleClientInit k]
          result := dispatch { client := some (ruleClientInit k) } }) := by
  constructor
  · intro h
    simp [handleRuleMcp, h]
  · intro k hk hne
    simp [handleRuleMcp, hk, hne]

/-- C5, witness: both halves of the gate at concrete metadata. -/
theorem C5_api_key_gate_witness :
    handleRuleMcp (some [("other", "x")]) (fun _ => .ok Json.null) =
      { clientsConstructed := []
        result := .error (.mcpValidationError "API key is required") } ∧
    handleRuleMcp (some [("api_key", "k1")]) (fun _ => .ok Json.null) =
      { clientsConstructed := [ruleClientInit "k1"]
        result := .ok Json.null } :=
  ⟨(C5_api_key_gate (some [("other", "x")]) (fun _ => .ok Json.null)).1 rfl,
   (C5_api_key_gate (some [("api_key", "k1")]) (fun _ => .ok Json.null)).2 "k1" rfl
     (by decide)⟩

/-- C6: for every valid subscriber envelope `{data: [...], pagination: {...}}`
(every element parses and the pagination parses), `get_subscribers` returns
exactly the parsed elements: the sequence has the length of `data`, and each
element's fields equal the corresponding JSON object's fields. -/
theorem C6_round_trip (items : List Json) (pag : Json) (t excStr : String)
    (page limit : Int) (filters : List (String × Json))
    (subs : List Subscriber) (p : Pagination)
    (hdata : mapME parseSubscriber items = .ok subs)
    (hpag : parsePagination pag = .ok p) :
    rcGetSubscribers
        (.response ⟨200, t,
          some (Json.obj [("data", Json.arr items), ("pagination", pag)])⟩)
        excStr page limit filters = .ok subs ∧
    subs.length = items.length ∧
    ∀ i (h1 : i < items.length) (h2 : i < subs.length),
      subscriberMatchesJson (subs.get ⟨i, h2⟩) (items.get ⟨i, h1⟩) := by
  refine ⟨?_, mapME_ok_length hdata, ?_⟩
  · simp [rcGetSubscribers, rcRequest_get_200, parseSubscribersResponse,
      alistGet, hdata, hpag]
  · intro i h1 h2
    exact parseSubscriber_ok (mapME_ok_get hdata i h1 h2)

/-- C6, witness: the round trip at the unit tests' one-subscriber envelope. -/
theorem C6_round_trip_witness :
    rcGetSubscribers
        (.response ⟨200, "",
          some (Json.obj
            [("data", Json.arr [Json.obj
              [("id", Json.str "123"), ("email", Json.str "test@example.com"),
               ("created", Json.str "2023-01-01T00:00:00Z"),
               ("updated", Json.str "2023-01-01T00:00:00Z"),
               ("fields", Json.obj []), ("tags", Json.arr []),
               ("unsubscribed", Json.bool false), ("bounced", Json.bool false),
               ("status", Json.str "active")]]),
             ("pagination", Json.obj
               [("total", Json.num 1), ("count", Json.num 1),
                ("per_page", Json.num 10), ("current_page", Json.num 1),
                ("total_pages", Json.num 1)])])⟩)
        "exc" 1 100 [] =
      .ok [{ id := "123", email := "test@example.com",
             created := "2023-01-01T00:00:00Z", updated := "2023-01-01T00:00:00Z",
             fields := [], tags := [], unsubscribed := false, bounced := false,
             status := "active", source := none }] :=
  (C6_round_trip
    [Json.obj
      [("id", Json.str "123"), ("email", Json.str "test@example.com"),
       ("created", Json.str "2023-01-01T00:00:00Z"),
       ("updated", Json.str "2023-01-01T00:00:00Z"),
       ("fields", Json.obj []), ("tags", Json.arr []),
       ("unsubscribed", Json.bool false), ("bounced", Json.bool false),
       ("status", Json.str "active")]]
    (Json.obj
      [("total", Json.num 1), ("count", Json.num 1), ("per_page", Json.num 10),
       ("current_page", Json.num 1), ("total_pages", Json.num 1)])
    "" "exc" 1 100 []
    [{ id := "123", email := "test@example.com",
       created := "2023-01-01T00:00:00Z", updated := "2023-01-01T00:00:00Z",
       fields := [], tags := [], unsubscribed := false, bounced := false,
       status := "active", source := none }]
    ⟨1, 1, 10, 1, 1⟩ rfl rfl).1

/-- C7: every list handler answers with a body that echoes the request's
`page` and `limit` and reports `total` as the length of the sequence the
client call returned, alongside the entity-named array. -/
theorem C7_list_handlers_echo (ctx : Context) (c : RuleClient)
    (params : SearchParams) (hc : ctx.client = some c) :
    (∀ (fetch : RuleClient → Option Int → Option Int → List (String × String) →
        Except PyErr (List Subscriber)) (subs : List Subscriber),
      fetch c params.page params.limit (params.filters.getD []) = .ok subs →
      ∃ body, getSubscribersHandler ctx params fetch = .ok body ∧
        body.getKey "subscribers" = some (Json.arr (subs.map subscriberToJson)) ∧
        body.getKey "page" = some (jsonOfOptInt params.page) ∧
        body.getKey "limit" = some (jsonOfOptInt params.limit) ∧
        body.getKey "total" = some (Json.num subs.length)) ∧
    (∀ (fetch : RuleClient → Option Int → Option Int → Except PyErr (List Tag))
        (tags : List Tag),
      fetch c params.page params.limit = .ok tags →
      ∃ body, getTagsHandler ctx params fetch = .ok body ∧
        body.getKey "tags" = some (Json.arr (tags.map tagToJson)) ∧
        body.getKey "page" = some (jsonOfOptInt params.page) ∧
        body.getKey "limit" = some (jsonOfOptInt params.limit) ∧
        body.getKey "total" = some (Json.num tags.length)) ∧
    (∀ (fetch : RuleClient → Option Int → Option Int → Except PyErr (List Campaign))
        (camps : List Campaign),
      fetch c params.page params.limit = .ok camps →
      ∃ body, getCampaignsHandler ctx params fetch = .ok body ∧
        body.getKey "campaigns" = some (Json.arr (camps.map campaignToJson)) ∧
        body.getKey "page" = some (jsonOfOptInt params.page) ∧
        body.getKey "limit" = some (jsonOfOptInt params.limit) ∧
        body.getKey "total" = some (Json.num camps.length)) ∧
    (∀ (fetch : RuleClient → Option Int → Option Int → Except PyErr (List CustomField))
        (fields : List CustomField),
      fetch c params.page params.limit = .ok fields →
      ∃ body, getCustomFieldsHandler ctx params fetch = .ok body ∧
        body.getKey "fields" = some (Json.arr (fields.map customFieldToJson)) ∧
        body.getKey "page" = some (jsonOfOptInt params.page) ∧
        body.getKey "limit" = some (jsonOfOptInt params.limit) ∧
        body.getKey "total" = some (Json.num fields.length)) := by
  refine ⟨?_, ?_, ?_, ?_⟩ <;> intro fetch xs hf
  · refine ⟨Json.obj
      [("subscribers", Json.arr (xs.map subscriberToJson)),
       ("page", jsonOfOptInt params.page), ("limit", jsonOfOptInt params.limit),
       ("total", Json.num xs.length)], ?_, ?_, ?_, ?_, ?_⟩
    · simp [getSubscribersHandler, hc, hf]
    all_goals simp [Json.getKey, alistGet]
  · refine ⟨Json.obj
      [("tags", Json.arr (xs.map tagToJson)),
       ("page", jsonOfOptInt params.page), ("limit", jsonOfOptInt params.limit),
       ("total", Json.num xs.length)], ?_, ?_, ?_, ?_, ?_⟩
    · simp [getTagsHandler, hc, hf]
    all_goals simp [Json.getKey, alistGet]
  · refine ⟨Json.obj
      [("campaigns", Json.arr (xs.map campaignToJson)),
       ("page", jsonOfOptInt params.page), ("limit", jsonOfOptInt params.limit),
       ("total", Json.num xs.length)], ?_, ?_, ?_, ?_, ?_⟩
    · simp [getCampaignsHandler, hc, hf]
    all_goals simp [Json.getKey, alistGet]
  · refine ⟨Json.obj
      [("fields", Json.arr (xs.map customFieldToJson)),
       ("page", jsonOfOptInt params.page), ("limit", jsonOfOptInt params.limit),
       ("total", Json.num xs.length)], ?_, ?_, ?_, ?_, ?_⟩
    · simp [getCustomFieldsHandler, hc, hf]
    all_goals simp [Json.getKey, alistGet]

/-- C7, witness: the tags handler at an empty tag list echoes page 2,
limit 5, total 0. -/
theorem C7_list_handlers_echo_witness :
    ∃ body,
      getTagsHandler { client := some (ruleClientInit "k") }
        { page := some 2, limit := some 5, filters := none }
        (fun _ _ _ => .ok []) = .ok body ∧
      body.getKey "tags" = some (Json.arr []) ∧
      body.getKey "page" = some (jsonOfOptInt (some 2)) ∧
      body.getKey "limit" = some (jsonOfOptInt (some 5)) ∧
      body.getKey "total" = some (Json.num 0) := by
  obtain ⟨body, h1, h2, h3, h4, h5⟩ :=
    (C7_list_handlers_echo { client := some (ruleClientInit "k") }
      (ruleClientInit "k") { page := some 2, limit := some 5, filters := none }
      rfl).2.1 (fun _ _ _ => .ok []) [] rfl
  exact ⟨body, h1, h2, h3, h4, h5⟩

/-- C8: every method whose uppercased form is none of GET/POST/PUT/DELETE
makes `_request` raise before any network call: the result records that no
HTTP verb was dispatched and carries the `ValueError("Unsupported HTTP
method: ...")` that client.py line 93 raises (the failure the spec names
`UnsupportedMethodError`). -/
theorem C8_unsupported_method (method path : String)
    (params : List (String × Json)) (d : Option Json) (http : HttpOutcome)
    (excStr : String)
    (h1 : pyUpper method ≠ "GET") (h2 : pyUpper method ≠ "POST")
    (h3 : pyUpper method ≠ "PUT") (h4 : pyUpper method ≠ "DELETE") :
    rcRequest method path params d http excStr =
      { networkCalled := false
        outcome := .error (.valueError ("Unsupported HTTP method: " ++ method)) } := by
  have hs : isSupportedMethod method = false := by
    simp [isSupportedMethod, h1, h2, h3, h4]
  simp [rcRequest, hs]

/-- C8, witness: `PATCH` (and lowercase `patch` uppercases the same way) is
rejected without a network call. -/
theorem C8_unsupported_method_witness :
    rcRequest "patch" "/subscribers" [] none
        (.response ⟨200, "", some (Json.obj [])⟩) "exc" =
      { networkCalled := false
        outcome := .error (.valueError "Unsupported HTTP method: patch") } := by
  rw [C8_unsupported_method "patch" "/subscribers" [] none
    (.response ⟨200, "", some (Json.obj [])⟩) "exc"
    (by decide) (by decide) (by decide) (by decide)]
  rfl

/-- C10: `get_subscribers` requires `pagination`: any 200 JSON object with a
`data` key but no `pagination` key fails its envelope validation; the other
three list operations never look at `pagination` and succeed on a bare
`{data: [...]}` whenever the elements validate. -/
theorem C10_pagination_only_for_subscribers :
    (∀ (kvs : List (String × Json)) (dj : Json) (t excStr : String)
        (page limit : Int) (filters : List (String × Json)),
      alistGet kvs "data" = some dj → alistGet kvs "pagination" = none →
      ∃ m, rcGetSubscribers (.response ⟨200, t, some (Json.obj kvs)⟩) excStr
        page limit filters = .error (.validationError m)) ∧
    (∀ (items : List Json) (ts : List Tag) (t excStr : String) (page limit : Int),
      mapME parseTag items = .ok ts →
      rcGetTags (.response ⟨200, t, some (Json.obj [("data", Json.arr items)])⟩)
        excStr page limit = .ok ts) ∧
    (∀ (items : List Json) (cs : List Campaign) (t excStr : String) (page limit : Int),
      mapME parseCampaign items = .ok cs →
      rcGetCampaigns (.response ⟨200, t, some (Json.obj [("data", Json.arr items)])⟩)
        excStr page limit = .ok cs) ∧
    (∀ (items : List Json) (fs : List CustomField) (t excStr : String) (page limit : Int),
      mapME parseCustomField items = .ok fs →
      rcGetCustomFields (.response ⟨200, t, some (Json.obj [("data", Json.arr items)])⟩)
        excStr page limit = .ok fs) := by
  refine ⟨?_, ?_, ?_, ?_⟩
  · intro kvs dj t excStr page limit filters hdata hpag
    cases dj with
    | arr xs =>
      cases hm : mapME parseSubscriber xs with
      | error e =>
        exact ⟨e, by simp [rcGetSubscribers, rcRequest_get_200,
          parseSubscribersResponse, hdata, hpag, hm]⟩
      | ok data =>
        exact ⟨"pagination: Field required", by simp [rcGetSubscribers,
          rcRequest_get_200, parseSubscribersResponse, hdata, hpag, hm]⟩
    | null => exact ⟨"data: Input should be a valid list", by simp
        [rcGetSubscribers, rcRequest_get_200, parseSubscribersResponse, hdata]⟩
    | bool b => exact ⟨"data: Input should be a valid list", by simp
        [rcGetSubscribers, rcRequest_get_200, parseSubscribersResponse, hdata]⟩
    | num n => exact ⟨"data: Input should be a valid list", by simp
        [rcGetSubscribers, rcRequest_get_200, parseSubscribersResponse, hdata]⟩
    | str s => exact ⟨"data: Input should be a valid list", by simp
        [rcGetSubscribers, rcRequest_get_200, parseSubscribersResponse, hdata]⟩
    | obj o => exact ⟨"data: Input should be a valid list", by simp
        [rcGetSubscribers, rcRequest_get_200, parseSubscribersResponse, hdata]⟩
  · intro items ts t excStr page limit hm
    simp [rcGetTags, unwrapDataList, rcRequest_get_200, alistGet, hm]
  · intro items cs t excStr page limit hm
    simp [rcGetCampaigns, unwrapDataList, rcRequest_get_200, alistGet, hm]
  · intro items fs t excStr page limit hm
    simp [rcGetCustomFields, unwrapDataList, rcRequest_get_200, alistGet, hm]

/-- C10, witness: the bare envelope `{"data": []}` — `get_subscribers`
fails validation, `get_tags` returns the empty list. -/
theorem C10_pagination_witness :
    (∃ m, rcGetSubscribers (.response ⟨200, "", some (Json.obj
        [("data", Json.arr [])])⟩) "exc" 1 100 [] =
      .error (.validationError m)) ∧
    rcGetTags (.response ⟨200, "", some (Json.obj [("data", Json.arr [])])⟩)
      "exc" 1 100 = .ok [] :=
  ⟨(C10_pagination_only_for_subscribers).1 [("data", Json.arr [])]
      (Json.arr []) "" "exc" 1 100 [] rfl rfl,
   (C10_pagination_only_for_subscribers).2.1 [] [] "" "exc" 1 100 rfl⟩

end McpRule
